import Mathlib

/-!
Verification development for the `test-ssdp` UPnP control-point demo.

The repository is JavaScript; this file gives a shallow embedding of the
state and handler logic that the specification talks about:

* `src/ssdp-discovery.mjs` — SSDP discovery / descriptor resolution
  (`startDiscovery`), whose per-response pipeline is embedded as
  `extractDevice` / `processResponse`;
* `src/index.js` — the host: the registry of devices
  (`devices[key] = {...d}` embedded as `upsert`), the `services` and
  `actions` socket handlers, and `sortDevices`;
* `src/unnamed/part_005` — the variant host whose `actions` handler fetches
  a service SCPD document (`actionsHandlerPart5`).

Modelling conventions:

* JS objects with optional properties become structures with `Option`
  fields; reading a property of `undefined`/`null` (a `TypeError` that
  crashes the enclosing handler) is modelled with `Except JsError`.
* `xml2js` represents each present XML child element as a nonempty array;
  the sources only ever read index `[0]` of such arrays, so a parsed
  element is modelled as `Option String` (`some s` standing for the
  array `[s, ...]`, `none` for an absent property).  Where the sources
  index a list that can be empty or absent (`parsed.root.device[0]`,
  `serviceList[0]`), the list is kept as `Option (List _)`.
* JS string comparison (`<` on strings, used by `sortDevices`) is
  code-unit lexicographic; it is embedded as `jsLt` on `List Char`,
  and `String.prototype.toUpperCase` as `Char.toUpper` mapped over the
  characters (faithful on the Basic Latin range used here).
-/

namespace TestSsdp

/-- A raised JavaScript exception escaping a handler or callback. -/
inductive JsError where
  /-- a `TypeError` from reading a property of `undefined`/`null` -/
  | typeError (msg : String)
  /-- any other runtime `Error` (network failure, parse failure, ...) -/
  | error (msg : String)
deriving DecidableEq, Repr

/-- `deviceInfo` object built by `startDiscovery` (ssdp-discovery.mjs:30-33). -/
structure DeviceInfo where
  location : String
  manufacturer : String
deriving DecidableEq, Repr

/-- `extendedInfo` object built by `startDiscovery` (ssdp-discovery.mjs:34-39). -/
structure ExtendedInfo where
  deviceType : String
  friendlyName : String
  ssidName : String
  uuid : String
deriving DecidableEq, Repr

/-- One `<service>` element of a descriptor as parsed by xml2js: each child
element is an array; the sources read only index 0, modelled as `Option String`. -/
structure ServiceRec where
  serviceId : Option String
  serviceType : Option String
  controlURL : Option String
  eventSubURL : Option String
  SCPDURL : Option String
deriving DecidableEq, Repr

/-- One entry of the `serviceList` array: `serviceList[0].service` is the
array of `<service>` elements (part_005:180). -/
structure ServiceListEntry where
  service : Option (List ServiceRec)
deriving DecidableEq, Repr

/-- The parsed `<device>` element shape that the hosts read under `d.device`
(index.js:136, part_005:170,180): `UDN`, `friendlyName`, `serviceList`. -/
structure UpnpDesc where
  UDN : Option String
  friendlyName : Option String
  serviceList : Option (List ServiceListEntry)
deriving DecidableEq, Repr

/-- The raw SSDP response headers the hosts read under `d.ssdp`
(index.js:69, part_005:194): the descriptor `LOCATION` URL. -/
structure SsdpResp where
  LOCATION : String
deriving DecidableEq, Repr

/-- A device object as stored in the hosts' `devices` map.  All properties
are optional: the shipped discovery module emits only `friendlyName`,
`deviceInfo` and `extendedInfo` (ssdp-discovery.mjs:42-46), while the host
handlers additionally read `ssdp` and `device`. -/
structure DeviceRec where
  friendlyName : Option String
  deviceInfo : Option DeviceInfo
  extendedInfo : Option ExtendedInfo
  ssdp : Option SsdpResp
  device : Option UpnpDesc
deriving DecidableEq, Repr

/-- The `parsed.root.device[0]` element of a descriptor document as xml2js
parses it: every child element the repository ever touches, each optional. -/
structure ParsedDevice where
  manufacturer : Option String
  deviceType : Option String
  friendlyName : Option String
  ssidName : Option String
  uuid : Option String
  UDN : Option String
  modelName : Option String
  modelNumber : Option String
  modelDescription : Option String
  serviceList : Option (List ServiceListEntry)
deriving DecidableEq, Repr

/-- The `<root>` element: `root.device` is the array of `<device>` children. -/
structure RootElem where
  device : Option (List ParsedDevice)
deriving DecidableEq, Repr

/-- A successfully parsed descriptor document: `parsed.root` is absent when
the document's root element is not named `root`. -/
structure XmlDoc where
  root : Option RootElem
deriving DecidableEq, Repr

/-- Event emitted by `startDiscovery` (ssdp-discovery.mjs): either a
normalized device object or an error. -/
inductive DiscoveryEvent where
  | device (d : DeviceRec)
  | error (e : JsError)
deriving DecidableEq, Repr

/-- Environment outcome for one SSDP response: the HTTP fetch of the
descriptor fails, or the body fails to parse as XML, or parsing yields a
document. -/
inductive FetchParseOutcome where
  | netError (e : JsError)
  | parseError (e : JsError)
  | parsedDoc (doc : XmlDoc)
deriving DecidableEq, Repr

/-- JS `s || d` on strings: the empty string is falsy
(ssdp-discovery.mjs:40 `extendedInfo.friendlyName || ''`). -/
def jsOr (s d : String) : String := if s = "" then d else s

/-- The body of the `try` block of `startDiscovery`
(ssdp-discovery.mjs:28-46): read `parsed.root.device[0]` and build the
emitted device object.  A `TypeError` from reading a property of
`undefined` is returned as `Except.error` (it is what the surrounding
`catch` converts into an `error` event). -/
def extractDevice (location : String) (doc : XmlDoc) : Except JsError DeviceRec :=
  match doc.root with
  | none => .error (.typeError "Cannot read properties of undefined (reading device)")
  | some root =>
    match root.device with
    | none => .error (.typeError "Cannot read properties of undefined (reading 0)")
    | some [] => .error (.typeError "Cannot read properties of undefined (reading manufacturer)")
    | some (temp :: _) =>
      let deviceInfo : DeviceInfo :=
        { location := location
          manufacturer := temp.manufacturer.getD "" }
      let extendedInfo : ExtendedInfo :=
        { deviceType := temp.deviceType.getD ""
          friendlyName := temp.friendlyName.getD ""
          ssidName := temp.ssidName.getD ""
          uuid := temp.uuid.getD "" }
      .ok { friendlyName := some (jsOr extendedInfo.friendlyName "")
            deviceInfo := some deviceInfo
            extendedInfo := some extendedInfo
            ssdp := none
            device := none }

/-- The per-response pipeline of `startDiscovery` (ssdp-discovery.mjs:15-56):
a fetch error or a parse error is re-emitted as an `error` event; a parsed
document goes through the `try`/`catch` around the device extraction, whose
throw also becomes an `error` event; only a successful extraction emits a
`device` event. -/
def processResponse (resp : SsdpResp) (o : FetchParseOutcome) : DiscoveryEvent :=
  match o with
  | .netError e => .error e
  | .parseError e => .error e
  | .parsedDoc doc =>
    match extractDevice resp.LOCATION doc with
    | .error e => .error e
    | .ok d => .device d

/-- Whether an environment outcome is a successfully parsed document. -/
def isParsedDoc : FetchParseOutcome → Bool
  | .parsedDoc _ => true
  | _ => false

/-- The hosts' `devices` map: a JS object, i.e. an insertion-ordered
association list with (invariantly) distinct keys. -/
abbrev Registry := List (String × DeviceRec)

/-- `devices[key] = {...d}` (index.js:71): replace the value at an existing
key in place, or append a new key at the end.  The spread `{...d}` copies
`d` unchanged (no merge with any previous record). -/
def upsert : Registry → String → DeviceRec → Registry
  | [], k, v => [(k, v)]
  | (k', v') :: rest, k, v =>
    if k' = k then (k, v) :: rest else (k', v') :: upsert rest k v

/-- The keys of the registry, in insertion order. -/
def regKeys (reg : Registry) : List String := reg.map Prod.fst

/-- `d.device && d.device.UDN ? d.device.UDN[0] : null`
(index.js:136, part_005:170). -/
def udnOf (d : DeviceRec) : Option String :=
  match d.device with
  | some dd => dd.UDN
  | none => none

/-- The lookup loop of the `services`/`actions` handlers
(index.js:133-141): scan the registry in insertion order and select the
first device whose UDN equals the requested one; `null` when none does. -/
def findByUDN : Registry → String → Option DeviceRec
  | [], _ => none
  | (_, d) :: rest, u =>
    if udnOf d = some u then some d else findByUDN rest u

/-- `const key = d.ssdp.LOCATION` (index.js:69): reading `LOCATION` of an
absent `ssdp` property throws a `TypeError`. -/
def keyOf (d : DeviceRec) : Except JsError String :=
  match d.ssdp with
  | none => .error (.typeError "Cannot read properties of undefined (reading LOCATION)")
  | some s => .ok s.LOCATION

/-- The host's `discovery.on('device')` handler (index.js:66-77): compute
the key from `d.ssdp.LOCATION` and upsert; a throw escapes the handler. -/
def onDeviceEvent (reg : Registry) (d : DeviceRec) : Except JsError Registry :=
  match keyOf d with
  | .error e => .error e
  | .ok k => .ok (upsert reg k d)

/-- Effect of one discovery event on the host registry (index.js:66-81):
`device` events go through the upsert handler; `error` events are only
logged and leave the registry unchanged. -/
def applyEvent (reg : Registry) (ev : DiscoveryEvent) : Except JsError Registry :=
  match ev with
  | .device d => onDeviceEvent reg d
  | .error _ => .ok reg

/-- A value emitted on the socket back to the UI: a plain string, or the
object `{ error: msg }` (part_005:221). -/
inductive SocketEmit where
  | str (s : String)
  | errObj (msg : String)
deriving DecidableEq, Repr

/-- The `services` handler (index.js:130-143): find the device by UDN,
then emit `selectedDevice.device.serviceList[0]`.  When no device matched,
`selectedDevice` is `null` and reading `.device` of it throws; when
`serviceList` is absent, indexing `[0]` of `undefined` throws.  `.ok v`
models `socket.emit("services", v)` where `v` may be `undefined`. -/
def servicesHandler (reg : Registry) (msg : String) :
    Except JsError (Option ServiceListEntry) :=
  match findByUDN reg msg with
  | none => .error (.typeError "Cannot read properties of null (reading device)")
  | some d =>
    match d.device with
    | none => .error (.typeError "Cannot read properties of undefined (reading serviceList)")
    | some dd =>
      match dd.serviceList with
      | none => .error (.typeError "Cannot read properties of undefined (reading 0)")
      | some sl => .ok sl.head?

/-- One `upnpClient.callAction` control request (index.js:167-185): the
service type is always `"AVTransport"`, `InstanceID` is always `0`, and
`Speed` is present only when injected. -/
structure ControlRequest where
  serviceType : String
  action : String
  instanceID : Nat
  speed : Option Nat
deriving DecidableEq, Repr

/-- The synchronous part of the `actions` handler (index.js:164-190):
given whether `upnpClient` is set, the list of control requests issued and
the values emitted on the socket.  The `"status"` branch fires
`GetTransportInfo` (guarded by `upnpClient`); a message in
`["Play","Next","Prev","Pause"]` fires that action with `InstanceID: 0`
and, for `"Play"` only, `Speed = 1`; calling `callAction` on an undefined
`upnpClient` throws.  The handler always ends by emitting the string
`"ACTIONS"`. -/
def handleActionMsg (clientPresent : Bool) (msg : String) :
    Except JsError (List ControlRequest × List SocketEmit) :=
  let statusReqs : List ControlRequest :=
    if clientPresent then
      if msg = "status" then
        [{ serviceType := "AVTransport", action := "GetTransportInfo",
           instanceID := 0, speed := none }]
      else []
    else []
  if msg ∈ ["Play", "Next", "Prev", "Pause"] then
    if clientPresent then
      .ok (statusReqs ++
            [{ serviceType := "AVTransport", action := msg, instanceID := 0,
               speed := if msg = "Play" then some 1 else none }],
           [SocketEmit.str "ACTIONS"])
    else .error (.typeError "Cannot read properties of undefined (reading callAction)")
  else .ok (statusReqs, [SocketEmit.str "ACTIONS"])

/-- The completion value handed to a `callAction` callback: the node-style
`(err, result)` pair. -/
inductive CallResult (α : Type) where
  | ok (r : α) : CallResult α
  | fail (e : JsError) : CallResult α
deriving DecidableEq, Repr

/-- The `GetTransportInfo` completion callback (index.js:171-176):
`if (err) throw err` re-raises the error out of the callback (modelled as
`Except.error`, an uncaught throw); on success it emits
`result.CurrentTransportState`. -/
def statusCallback : CallResult String → Except JsError (List SocketEmit)
  | .fail e => .error e
  | .ok st => .ok [SocketEmit.str st]

/-- The Play/Next/Prev/Pause completion callback (index.js:185-187):
`if (err) throw err`, and nothing is emitted on success. -/
def transportCallback : CallResult Unit → Except JsError (List SocketEmit)
  | .fail e => .error e
  | .ok _ => .ok []

/-! ### sortDevices (index.js:206-214) -/

/-- JS `<` on strings: lexicographic comparison by code unit. -/
def jsLt : List Char → List Char → Bool
  | [], [] => false
  | [], _ :: _ => true
  | _ :: _, [] => false
  | a :: as, b :: bs =>
    if a.toNat < b.toNat then true
    else if b.toNat < a.toNat then false
    else jsLt as bs

/-- `String.prototype.toUpperCase`, faithful on the Basic Latin range. -/
def jsUpper (s : List Char) : List Char := s.map Char.toUpper

/-- The comparison key of the `sortDevices` comparator (index.js:208-209):
`(a.device && a.device.friendlyName) ? a.device.friendlyName[0].toUpperCase() : ''`. -/
def nameKey (d : DeviceRec) : List Char :=
  match d.device with
  | some dd =>
    match dd.friendlyName with
    | some fn => jsUpper fn.data
    | none => []
  | none => []

/-- The total preorder induced by the `sortDevices` comparator: `a` need
not come after `b` exactly when the comparator does not return `1`,
i.e. when `nameKey b < nameKey a` is false. -/
def devLe (a b : DeviceRec) : Prop := jsLt (nameKey b) (nameKey a) = false

instance : DecidableRel devLe := fun a b =>
  inferInstanceAs (Decidable (jsLt (nameKey b) (nameKey a) = false))

/-- `result.sort(comparator)` (index.js:207): `Array.prototype.sort` is a
stable sort, and with this comparator its result is the unique stable
ascending ordering by `nameKey`; it is embedded as the (stable) insertion
sort with respect to `devLe`. -/
def sortDevices (l : List DeviceRec) : List DeviceRec :=
  List.insertionSort devLe l

/-! ### The SCPD-fetching `actions` handler (src/unnamed/part_005:164-224) -/

/-- `new URL(s).origin` for the http URLs appearing as SSDP `LOCATION`
values: the scheme followed by the host-and-port part (everything between
`"://"` and the next `/`).  This models the WHATWG URL builtin only as far
as the repository exercises it (absolute http URLs, no userinfo). -/
def urlOrigin (s : String) : String :=
  match s.splitOn "://" with
  | scheme :: rest :: _ =>
    scheme ++ "://" ++ String.mk (rest.data.takeWhile (fun c => c ≠ '/'))
  | _ => s

/-- Whether a URL string carries its own scheme (a `:` appears before any
`/`), in which case `new URL(rel, base)` ignores the base. -/
def hasScheme (rel : List Char) : Bool :=
  (rel.takeWhile (fun c => c ≠ '/')).contains ':'

/-- `new URL(rel, base).href` where `base` is an origin (part_005:196):
a scheme-qualified `rel` stands alone; a path-absolute `rel` (leading `/`)
is appended to the origin; any other `rel` is treated as a relative path
segment.  Models the WHATWG builtin as far as the repository uses it. -/
def resolveUrl (rel base : String) : String :=
  if hasScheme rel.data then rel
  else if rel.data.head? = some '/' then base ++ rel
  else base ++ "/" ++ rel

/-- The service-scan of the part_005 `actions` handler (part_005:178-189):
read `selectedDevice.device.serviceList[0].service || []` (each failing
property read throws) and return the `SCPDURL` of the first service whose
`serviceId` equals the requested one, `null` when none matches or the
matching service has no `SCPDURL`. -/
def findServiceScpd (dd : UpnpDesc) (sid : String) :
    Except JsError (Option String) :=
  match dd.serviceList with
  | none => .error (.typeError "Cannot read properties of undefined (reading 0)")
  | some [] => .error (.typeError "Cannot read properties of undefined (reading service)")
  | some (sl0 :: _) =>
    let services := sl0.service.getD []
    .ok (match services.find? (fun s => s.serviceId = some sid) with
         | some svc => svc.SCPDURL
         | none => none)

/-- The URL computation of the part_005 `actions` handler (part_005:178-197):
locate the requested service's `SCPDURL` and resolve it against
`new URL(selectedDevice.ssdp.LOCATION).origin`.  Returns `none` when no
SCPD URL was found (the handler then does nothing). -/
def scpdRequestUrl (d : DeviceRec) (sid : String) :
    Except JsError (Option String) :=
  match d.device with
  | none => .error (.typeError "Cannot read properties of undefined (reading serviceList)")
  | some dd =>
    match findServiceScpd dd sid with
    | .error e => .error e
    | .ok none => .ok none
    | .ok (some scpd) =>
      match d.ssdp with
      | none => .error (.typeError "Cannot read properties of undefined (reading LOCATION)")
      | some ss => .ok (some (resolveUrl scpd (urlOrigin ss.LOCATION)))

/-- The part_005 `actions` handler (part_005:164-224), with the HTTP fetch
abstracted as an oracle from the requested URL to its outcome: find the
device by UDN (no device or no SCPD URL means the handler silently does
nothing), fetch the resolved SCPD URL, and emit the raw response body on
success or the object an error object on failure. -/
def actionsHandlerPart5 (reg : Registry) (deviceUdn sid : String)
    (fetch : String → CallResult String) : Except JsError (List SocketEmit) :=
  match findByUDN reg deviceUdn with
  | none => .ok []
  | some d =>
    match scpdRequestUrl d sid with
    | .error e => .error e
    | .ok none => .ok []
    | .ok (some url) =>
      match fetch url with
      | .ok body => .ok [SocketEmit.str body]
      | .fail _ => .ok [SocketEmit.errObj "Failed to fetch SCPD URL"]

/-! ### Concrete fixtures used by witnesses and counterexamples -/

/-- A device record carrying only a `friendlyName` under its parsed
descriptor, as the `sortDevices` comparator reads it. -/
def devNamed (s : String) : DeviceRec :=
  { friendlyName := none, deviceInfo := none, extendedInfo := none, ssdp := none,
    device := some { UDN := none, friendlyName := some s, serviceList := none } }

/-- A device record with no parsed descriptor at all (missing friendlyName). -/
def devUnnamed : DeviceRec :=
  { friendlyName := none, deviceInfo := none, extendedInfo := none, ssdp := none,
    device := none }

/-- A fixture `<service>` element of a descriptor document. -/
def avDescService : ServiceRec :=
  { serviceId := some "urn:upnp-org:serviceId:AVTransport"
    serviceType := some "urn:schemas-upnp-org:service:AVTransport:1"
    controlURL := some "/upnp/control/AVTransport1"
    eventSubURL := some "/upnp/event/AVTransport1"
    SCPDURL := some "/upnp/scpd/AVTransport1.xml" }

/-- A fixture parsed `<device>` element with every field present, including
a non-empty `UDN`, model fields and a service list. -/
def fullParsedDevice : ParsedDevice :=
  { manufacturer := some "Acme"
    deviceType := some "urn:schemas-upnp-org:device:MediaRenderer:1"
    friendlyName := some "Living Room Speaker"
    ssidName := none
    uuid := none
    UDN := some "uuid:12345678-aaaa-bbbb-cccc-000000000001"
    modelName := some "WiiM Pro"
    modelNumber := some "1.0"
    modelDescription := some "Network audio renderer"
    serviceList := some [{ service := some [avDescService] }] }

/-- The same fixture with `UDN`, model fields and service list absent. -/
def strippedParsedDevice : ParsedDevice :=
  { manufacturer := some "Acme"
    deviceType := some "urn:schemas-upnp-org:device:MediaRenderer:1"
    friendlyName := some "Living Room Speaker"
    ssidName := none
    uuid := none
    UDN := none
    modelName := none
    modelNumber := none
    modelDescription := none
    serviceList := none }

/-- A well-formed descriptor document around `fullParsedDevice`. -/
def fullDoc : XmlDoc := { root := some { device := some [fullParsedDevice] } }

/-- A well-formed descriptor document around `strippedParsedDevice`. -/
def strippedDoc : XmlDoc := { root := some { device := some [strippedParsedDevice] } }

/-- A fixture descriptor location URL. -/
def descLoc : String := "http://192.168.1.40:49152/description.xml"

/-- The device record `startDiscovery` emits for `fullDoc` (and, as it turns
out, for `strippedDoc` as well) fetched from `descLoc`. -/
def emittedDev : DeviceRec :=
  { friendlyName := some "Living Room Speaker"
    deviceInfo := some { location := descLoc, manufacturer := "Acme" }
    extendedInfo := some { deviceType := "urn:schemas-upnp-org:device:MediaRenderer:1"
                           friendlyName := "Living Room Speaker"
                           ssidName := ""
                           uuid := "" }
    ssdp := none
    device := none }

/-- A service entry for the part_005 handler, carrying a serviceId and a
(path-relative) `SCPDURL`. -/
def mkScpdService (sid scpd : String) : ServiceRec :=
  { serviceId := some sid
    serviceType := some "urn:schemas-upnp-org:service:AVTransport:1"
    controlURL := none
    eventSubURL := none
    SCPDURL := some scpd }

/-- A registered device of the legacy shape the part_005 `actions` handler
expects: an `ssdp.LOCATION`, a parsed descriptor with a `UDN` and a service
list containing a single service. -/
def mkScpdDevice (loc u sid scpd : String) : DeviceRec :=
  { friendlyName := none, deviceInfo := none, extendedInfo := none
    ssdp := some { LOCATION := loc }
    device := some { UDN := some u
                     friendlyName := none
                     serviceList := some [{ service := some [mkScpdService sid scpd] }] } }

/-! ### Order-theoretic facts about the `sortDevices` comparator -/

theorem jsLt_nil_right : ∀ c : List Char, jsLt c [] = false := by
  intro c; cases c <;> rfl

theorem jsLt_irrefl : ∀ s : List Char, jsLt s s = false
  | [] => rfl
  | a :: as => by
    unfold jsLt
    rw [if_neg (lt_irrefl _), if_neg (lt_irrefl _)]
    exact jsLt_irrefl as

theorem jsLt_total : ∀ s t : List Char, jsLt s t = false ∨ jsLt t s = false
  | [], [] => Or.inl rfl
  | [], _ :: _ => Or.inr rfl
  | _ :: _, [] => Or.inl rfl
  | a :: as, b :: bs => by
    by_cases h1 : a.toNat < b.toNat
    · have h2 : ¬ b.toNat < a.toNat := by omega
      right; simp [jsLt, h1, h2]
    · by_cases h2 : b.toNat < a.toNat
      · left; simp [jsLt, h1, h2]
      · cases jsLt_total as bs with
        | inl h => left; simp [jsLt, h1, h2, h]
        | inr h => right; simp [jsLt, h1, h2, h]

theorem jsLe_trans : ∀ a b c : List Char,
    jsLt b a = false → jsLt c b = false → jsLt c a = false
  | [], _, c => fun _ _ => jsLt_nil_right c
  | _ :: _, [], _ => fun h1 _ => by simp [jsLt] at h1
  | _ :: _, _ :: _, [] => fun _ h2 => by simp [jsLt] at h2
  | x :: xs, y :: ys, z :: zs => fun h1 h2 => by
    simp only [jsLt] at h1 h2 ⊢
    by_cases hyx : y.toNat < x.toNat
    · simp [hyx] at h1
    · by_cases hzy : z.toNat < y.toNat
      · simp [hzy] at h2
      · have hzx : ¬ z.toNat < x.toNat := by omega
        by_cases hxz : x.toNat < z.toNat
        · simp [hzx, hxz]
        · have hxy : ¬ x.toNat < y.toNat := by omega
          have hyz : ¬ y.toNat < z.toNat := by omega
          simp [hyx, hxy] at h1
          simp [hzy, hyz] at h2
          simp [hzx, hxz]
          exact jsLe_trans xs ys zs h1 h2

instance : IsTotal DeviceRec devLe :=
  ⟨fun a b => jsLt_total (nameKey b) (nameKey a)⟩

instance : IsTrans DeviceRec devLe :=
  ⟨fun _ _ _ hab hbc => jsLe_trans _ _ _ hab hbc⟩

/-- Inserting `a` in order commutes with filtering by an exact comparison
key: `orderedInsert` places `a` after strictly smaller keys only, so the
relative order of the key class of `k` is preserved. -/
theorem filter_key_orderedInsert (a : DeviceRec) (l : List DeviceRec) (k : List Char) :
    (List.orderedInsert devLe a l).filter (fun d => nameKey d = k)
      = if nameKey a = k then a :: l.filter (fun d => nameKey d = k)
        else l.filter (fun d => nameKey d = k) := by
  induction l with
  | nil =>
    by_cases h : nameKey a = k <;> simp [List.orderedInsert, h]
  | cons b l ih =>
    by_cases hab : devLe a b
    · by_cases h : nameKey a = k <;>
        simp [List.orderedInsert, if_pos hab, List.filter, h]
    · have hlt : jsLt (nameKey b) (nameKey a) = true := by
        have := hab
        unfold devLe at this
        exact Bool.not_eq_false _ |>.mp this
      by_cases h : nameKey a = k
      · have hbk : ¬ nameKey b = k := by
          intro hbk
          rw [hbk, ← h, jsLt_irrefl] at hlt
          exact Bool.false_ne_true hlt
        simp [List.orderedInsert, if_neg hab, List.filter, h, hbk, ih]
      · by_cases hbk : nameKey b = k <;>
          simp [List.orderedInsert, if_neg hab, List.filter, h, hbk, ih]

/-- `sortDevices` is a stable permutation: it preserves the subsequence of
devices having any fixed comparison key. -/
theorem filter_key_sortDevices (l : List DeviceRec) (k : List Char) :
    (sortDevices l).filter (fun d => nameKey d = k)
      = l.filter (fun d => nameKey d = k) := by
  induction l with
  | nil => rfl
  | cons a l ih =>
    show (List.orderedInsert devLe a (List.insertionSort devLe l)).filter _ = _
    rw [filter_key_orderedInsert]
    by_cases h : nameKey a = k <;> simp [List.filter, h, ih, sortDevices] at ih ⊢

/-! ### Registry lemmas -/

theorem regKeys_cons (k : String) (v : DeviceRec) (l : Registry) :
    regKeys ((k, v) :: l) = k :: regKeys l := rfl

theorem regKeys_upsert (reg : Registry) (k : String) (v : DeviceRec) :
    regKeys (upsert reg k v)
      = if k ∈ regKeys reg then regKeys reg else regKeys reg ++ [k] := by
  induction reg with
  | nil => simp [upsert, regKeys]
  | cons p rest ih =>
    obtain ⟨k', v'⟩ := p
    by_cases h : k' = k
    · subst h
      simp [upsert, regKeys_cons]
    · have h' : (k = k') = False := eq_false fun hk => h hk.symm
      simp only [upsert, if_neg h, regKeys_cons, ih, List.mem_cons, h', false_or]
      by_cases hm : k ∈ regKeys rest <;> simp [hm]

theorem nodup_regKeys_upsert (reg : Registry) (k : String) (v : DeviceRec)
    (h : (regKeys reg).Nodup) : (regKeys (upsert reg k v)).Nodup := by
  rw [regKeys_upsert]
  by_cases hm : k ∈ regKeys reg
  · simpa [hm] using h
  · simp [hm, List.nodup_append, h]

theorem filter_key_eq_nil_of_not_mem (reg : Registry) (k : String)
    (h : k ∉ regKeys reg) : reg.filter (fun p => p.1 = k) = [] := by
  induction reg with
  | nil => rfl
  | cons p rest ih =>
    obtain ⟨k', v'⟩ := p
    rw [regKeys_cons, List.mem_cons] at h
    push_neg at h
    obtain ⟨h1, h2⟩ := h
    have hne : ¬ k' = k := fun hk => h1 hk.symm
    simp [List.filter, hne, ih h2]

theorem filter_key_upsert (reg : Registry) (k : String) (v : DeviceRec)
    (h : (regKeys reg).Nodup) :
    (upsert reg k v).filter (fun p => p.1 = k) = [(k, v)] := by
  induction reg with
  | nil => simp [upsert, List.filter]
  | cons p rest ih =>
    obtain ⟨k', v'⟩ := p
    rw [regKeys_cons] at h
    have h2 : k' ∉ regKeys rest := (List.nodup_cons.mp h).1
    have h1 : (regKeys rest).Nodup := (List.nodup_cons.mp h).2
    by_cases hk : k' = k
    · subst hk
      simp [upsert, List.filter, filter_key_eq_nil_of_not_mem rest k' h2]
    · simp [upsert, hk, List.filter, ih h1]

theorem upsert_upsert (reg : Registry) (k : String) (d1 d2 : DeviceRec) :
    upsert (upsert reg k d1) k d2 = upsert reg k d2 := by
  induction reg with
  | nil => simp [upsert]
  | cons p rest ih =>
    obtain ⟨k', v'⟩ := p
    by_cases hk : k' = k <;> simp [upsert, hk, ih]

/-! ### Claim theorems -/

/-- C1 (code divergence): in the `actions` handler of `src/index.js`, a
`callAction` completion that carries an error is re-raised by
`if (err) throw err` inside the completion callback — an uncaught throw
(modelled as `Except.error`) that terminates the invoking process — for
both the `GetTransportInfo` (`status`) callback and the Play/Pause/Next/
Prev callback.  No `InvocationError` result value is ever produced, which
is what the claim requires. -/
theorem c1_invocation_error_is_thrown_uncaught (e : JsError) :
    statusCallback (CallResult.fail e) = Except.error e
    ∧ transportCallback (CallResult.fail e) = Except.error e :=
  ⟨rfl, rfl⟩

/-- C2 (code divergence): when no registered device has the requested UDN,
the `services` handler of `src/index.js` leaves `selectedDevice` as `null`
and then dereferences `selectedDevice.device.serviceList[0]`, raising a
`TypeError` that crashes the handler instead of returning a not-found
signal. -/
theorem c2_unknown_udn_crashes_services_handler (reg : Registry) (u : String)
    (h : findByUDN reg u = none) :
    servicesHandler reg u
      = Except.error (JsError.typeError "Cannot read properties of null (reading device)") := by
  simp [servicesHandler, h]

/-- Witness for C2: the empty registry and a fresh UDN. -/
theorem c2_unknown_udn_crashes_services_handler_witness :
    servicesHandler [] "uuid:not-registered"
      = Except.error (JsError.typeError "Cannot read properties of null (reading device)") :=
  c2_unknown_udn_crashes_services_handler [] "uuid:not-registered" rfl

/-- C3: `sortDevices` output is ascending in the comparator preorder
(`devLe`, i.e. case-insensitive comparison of `friendlyName`, with the
empty key for an empty or missing name), it is stable (the subsequence of
devices with any fixed comparison key is preserved), missing and empty
friendly names both get the empty comparison key, and the concrete example
sorts "zeta", "Alpha", "" into "", "Alpha", "zeta". -/
theorem c3_sortDevices_sorted_stable :
    (∀ l : List DeviceRec, List.Sorted devLe (sortDevices l))
    ∧ (∀ (l : List DeviceRec) (k : List Char),
        (sortDevices l).filter (fun d => nameKey d = k)
          = l.filter (fun d => nameKey d = k))
    ∧ nameKey devUnnamed = []
    ∧ nameKey (devNamed "") = []
    ∧ sortDevices [devNamed "zeta", devNamed "Alpha", devNamed ""]
        = [devNamed "", devNamed "Alpha", devNamed "zeta"] :=
  ⟨fun l => List.sorted_insertionSort devLe l,
   filter_key_sortDevices, rfl, rfl, by decide⟩

/-- C4 counterexample: two well-formed descriptor documents — one with a
non-empty `UDN`, model name/number/description and a service list, one
without any of them — resolve to the *same* device record, whose `device`
and `ssdp` properties are absent.  Hence the resolver does not extract the
UDN, the model fields or the service list, and the produced record has no
non-empty UDN, contrary to the claim. -/
theorem c4_resolver_drops_udn_and_services :
    extractDevice descLoc fullDoc = Except.ok emittedDev
    ∧ extractDevice descLoc strippedDoc = Except.ok emittedDev
    ∧ fullParsedDevice.UDN = some "uuid:12345678-aaaa-bbbb-cccc-000000000001"
    ∧ strippedParsedDevice.UDN = none
    ∧ fullParsedDevice.serviceList ≠ none
    ∧ emittedDev.device = none
    ∧ emittedDev.ssdp = none :=
  ⟨rfl, rfl, rfl, rfl, by decide, rfl, rfl⟩

/-- C4 amended: for every well-formed descriptor document (root `device`
element present), the resolver produces a record whose `deviceInfo.location`
is the response location, which extracts only manufacturer, deviceType,
friendlyName, ssidName and uuid — each defaulting to the empty string when
absent — and which carries no UDN, no model fields and no service list
(`device` and `ssdp` properties absent). -/
theorem c4_amended_extracted_fields (location : String) (temp : ParsedDevice)
    (rest : List ParsedDevice) :
    extractDevice location { root := some { device := some (temp :: rest) } }
      = Except.ok
          { friendlyName := some (temp.friendlyName.getD "")
            deviceInfo := some { location := location
                                 manufacturer := temp.manufacturer.getD "" }
            extendedInfo := some { deviceType := temp.deviceType.getD ""
                                   friendlyName := temp.friendlyName.getD ""
                                   ssidName := temp.ssidName.getD ""
                                   uuid := temp.uuid.getD "" }
            ssdp := none
            device := none } := by
  have hj : jsOr (temp.friendlyName.getD "") "" = temp.friendlyName.getD "" := by
    unfold jsOr
    split
    · next h => exact h.symm
    · rfl
  simp [extractDevice, hj]

/-- C5: a device event (hence a registry insertion) arises only from a
successfully fetched and parsed descriptor: a network failure or a parse
failure yields exactly an `error` event, the host leaves the registry
unchanged on `error` events, and any outcome that produced a `device`
event was a parsed document. -/
theorem c5_device_only_after_successful_resolution (resp : SsdpResp)
    (reg : Registry) (e : JsError) (o : FetchParseOutcome) (d : DeviceRec)
    (h : processResponse resp o = DiscoveryEvent.device d) :
    processResponse resp (FetchParseOutcome.netError e) = DiscoveryEvent.error e
    ∧ processResponse resp (FetchParseOutcome.parseError e) = DiscoveryEvent.error e
    ∧ applyEvent reg (DiscoveryEvent.error e) = Except.ok reg
    ∧ isParsedDoc o = true := by
  refine ⟨rfl, rfl, rfl, ?_⟩
  cases o with
  | netError e' => simp [processResponse] at h
  | parseError e' => simp [processResponse] at h
  | parsedDoc doc => rfl

/-- Witness for C5: a concrete response whose parsed document emits a
device, together with concrete failure outcomes. -/
theorem c5_device_only_after_successful_resolution_witness :
    processResponse ⟨descLoc⟩ (FetchParseOutcome.netError (JsError.error "ECONNREFUSED"))
        = DiscoveryEvent.error (JsError.error "ECONNREFUSED")
    ∧ processResponse ⟨descLoc⟩ (FetchParseOutcome.parseError (JsError.error "ECONNREFUSED"))
        = DiscoveryEvent.error (JsError.error "ECONNREFUSED")
    ∧ applyEvent [] (DiscoveryEvent.error (JsError.error "ECONNREFUSED")) = Except.ok []
    ∧ isParsedDoc (FetchParseOutcome.parsedDoc fullDoc) = true :=
  c5_device_only_after_successful_resolution ⟨descLoc⟩ [] (JsError.error "ECONNREFUSED")
    (FetchParseOutcome.parsedDoc fullDoc) emittedDev rfl

/-- C6: `upsert` is idempotent and last-write-wins per location: upserting
the same location twice collapses to the single most recent upsert, the
registry then holds exactly one entry for that location and that entry is
exactly the most recently written record (no merge with the old one), and
key uniqueness is preserved. -/
theorem c6_upsert_idempotent_last_write_wins (reg : Registry) (k : String)
    (d1 d2 : DeviceRec) (h : (regKeys reg).Nodup) :
    upsert (upsert reg k d1) k d2 = upsert reg k d2
    ∧ (upsert (upsert reg k d1) k d2).filter (fun p => p.1 = k) = [(k, d2)]
    ∧ (regKeys (upsert (upsert reg k d1) k d2)).Nodup := by
  refine ⟨upsert_upsert reg k d1 d2, ?_, ?_⟩
  · rw [upsert_upsert]
    exact filter_key_upsert reg k d2 h
  · rw [upsert_upsert]
    exact nodup_regKeys_upsert reg k d2 h

/-- Witness for C6: a concrete one-entry registry and a fresh location
upserted twice with different records. -/
theorem c6_upsert_idempotent_last_write_wins_witness :
    upsert (upsert [("http://a/desc.xml", devUnnamed)] "http://b/desc.xml" (devNamed "Old"))
        "http://b/desc.xml" (devNamed "New")
      = upsert [("http://a/desc.xml", devUnnamed)] "http://b/desc.xml" (devNamed "New")
    ∧ (upsert (upsert [("http://a/desc.xml", devUnnamed)] "http://b/desc.xml" (devNamed "Old"))
        "http://b/desc.xml" (devNamed "New")).filter (fun p => p.1 = "http://b/desc.xml")
      = [("http://b/desc.xml", devNamed "New")]
    ∧ (regKeys (upsert (upsert [("http://a/desc.xml", devUnnamed)] "http://b/desc.xml"
        (devNamed "Old")) "http://b/desc.xml" (devNamed "New"))).Nodup :=
  c6_upsert_idempotent_last_write_wins [("http://a/desc.xml", devUnnamed)]
    "http://b/desc.xml" (devNamed "Old") (devNamed "New") (by decide)

/-- C7: with a upnp client present, the `actions` handler sends `Play` with
`InstanceID = 0` and the injected default `Speed = 1` (the wire protocol
carries no caller-supplied Speed at all), sends `Pause`, `Next` and `Prev`
with `InstanceID = 0` and no Speed, and sends `GetTransportInfo` (wire
message `"status"`) with `InstanceID = 0` and no Speed. -/
theorem c7_request_arguments :
    handleActionMsg true "Play"
      = Except.ok ([{ serviceType := "AVTransport", action := "Play",
                      instanceID := 0, speed := some 1 }], [SocketEmit.str "ACTIONS"])
    ∧ handleActionMsg true "Pause"
      = Except.ok ([{ serviceType := "AVTransport", action := "Pause",
                      instanceID := 0, speed := none }], [SocketEmit.str "ACTIONS"])
    ∧ handleActionMsg true "Next"
      = Except.ok ([{ serviceType := "AVTransport", action := "Next",
                      instanceID := 0, speed := none }], [SocketEmit.str "ACTIONS"])
    ∧ handleActionMsg true "Prev"
      = Except.ok ([{ serviceType := "AVTransport", action := "Prev",
                      instanceID := 0, speed := none }], [SocketEmit.str "ACTIONS"])
    ∧ handleActionMsg true "status"
      = Except.ok ([{ serviceType := "AVTransport", action := "GetTransportInfo",
                      instanceID := 0, speed := none }], [SocketEmit.str "ACTIONS"]) :=
  ⟨rfl, rfl, rfl, rfl, rfl⟩

/-- C8 counterexample: for the unrecognized action name "Frobnicate" the
handler forwards no control request, but it does not reject the invocation
either — its only emission is the same generic `"ACTIONS"` string it also
emits for the recognized action "Pause"; no `UnsupportedActionError`-like
failure value exists anywhere in the result. -/
theorem c8_unrecognized_action_not_rejected :
    handleActionMsg true "Frobnicate" = Except.ok ([], [SocketEmit.str "ACTIONS"])
    ∧ handleActionMsg true "Pause"
      = Except.ok ([{ serviceType := "AVTransport", action := "Pause",
                      instanceID := 0, speed := none }], [SocketEmit.str "ACTIONS"]) :=
  ⟨rfl, rfl⟩

/-- C8 amended: an action name that is none of Play/Next/Prev/Pause and not
the query message `"status"` causes no control request to be forwarded, but
it is silently acknowledged with the same generic `"ACTIONS"` emission used
for recognized actions, not rejected with an error value. -/
theorem c8_amended_unrecognized_silently_acknowledged (msg : String)
    (h1 : msg ∉ ["Play", "Next", "Prev", "Pause"]) (h2 : msg ≠ "status") :
    handleActionMsg true msg = Except.ok ([], [SocketEmit.str "ACTIONS"]) := by
  simp [handleActionMsg, h1, h2]

/-- Witness for the amended C8: a concrete unrecognized action name. -/
theorem c8_amended_unrecognized_silently_acknowledged_witness :
    handleActionMsg true "GetInfoEx" = Except.ok ([], [SocketEmit.str "ACTIONS"]) :=
  c8_amended_unrecognized_silently_acknowledged "GetInfoEx" (by decide) (by decide)

/-- C9: for a registered device of the expected shape whose matching service
carries a path-relative `SCPDURL` (leading `/`), the part_005 `actions`
handler computes the fetch URL by resolving that `SCPDURL` against the
origin of the device's descriptor location (yielding the absolute
`origin ++ SCPDURL`); on fetch success it emits the raw SCPD document to
the caller, and on fetch failure it emits the explicit failure object
`{ error: "Failed to fetch SCPD URL" }` instead of raising. -/
theorem c9_scpd_resolution_and_failure_value (k loc u sid body : String)
    (p : List Char) (e : JsError) :
    scpdRequestUrl (mkScpdDevice loc u sid (String.mk ('/' :: p))) sid
      = Except.ok (some (urlOrigin loc ++ String.mk ('/' :: p)))
    ∧ actionsHandlerPart5 [(k, mkScpdDevice loc u sid (String.mk ('/' :: p)))] u sid
        (fun _ => CallResult.ok body)
      = Except.ok [SocketEmit.str body]
    ∧ actionsHandlerPart5 [(k, mkScpdDevice loc u sid (String.mk ('/' :: p)))] u sid
        (fun _ => CallResult.fail e)
      = Except.ok [SocketEmit.errObj "Failed to fetch SCPD URL"] := by
  have hurl : scpdRequestUrl (mkScpdDevice loc u sid (String.mk ('/' :: p))) sid
      = Except.ok (some (urlOrigin loc ++ String.mk ('/' :: p))) := by
    simp [scpdRequestUrl, mkScpdDevice, findServiceScpd, mkScpdService, List.find?,
          resolveUrl, hasScheme, List.takeWhile]
  have hf : findByUDN [(k, mkScpdDevice loc u sid (String.mk ('/' :: p)))] u
      = some (mkScpdDevice loc u sid (String.mk ('/' :: p))) := by
    simp [findByUDN, udnOf, mkScpdDevice]
  refine ⟨hurl, ?_, ?_⟩ <;>
    simp [actionsHandlerPart5, hf, hurl]

/-- C10: every device record produced by the shipped discovery module has
only `friendlyName`, `deviceInfo` and `extendedInfo` — no `ssdp` and no
`device` property — while the host computes the registry key as
`d.ssdp.LOCATION` and looks devices up via `d.device.UDN[0]`.  Consequently
the key computation reads a property of `undefined` (a `TypeError`) on
every discovery event, the upsert handler fails and leaves the registry
unchanged, and an emitted device has no UDN, so it can never be found by
UDN even if it were registered. -/
theorem c10_emitted_shape_never_registrable (loc : String) (doc : XmlDoc)
    (r : DeviceRec) (reg : Registry) (k u : String)
    (h : extractDevice loc doc = Except.ok r) :
    r.ssdp = none ∧ r.device = none
    ∧ r.friendlyName.isSome ∧ r.deviceInfo.isSome ∧ r.extendedInfo.isSome
    ∧ keyOf r = Except.error
        (JsError.typeError "Cannot read properties of undefined (reading LOCATION)")
    ∧ onDeviceEvent reg r = Except.error
        (JsError.typeError "Cannot read properties of undefined (reading LOCATION)")
    ∧ udnOf r = none
    ∧ findByUDN [(k, r)] u = none := by
  obtain ⟨root⟩ := doc
  cases root with
  | none => simp [extractDevice] at h
  | some re =>
    obtain ⟨devs⟩ := re
    cases devs with
    | none => simp [extractDevice] at h
    | some ds =>
      cases ds with
      | nil => simp [extractDevice] at h
      | cons temp rest =>
        simp only [extractDevice, Except.ok.injEq] at h
        subst h
        refine ⟨rfl, rfl, rfl, rfl, rfl, rfl, rfl, rfl, ?_⟩
        simp [findByUDN, udnOf]

/-- Witness for C10: the concrete record emitted for the fixture document. -/
theorem c10_emitted_shape_never_registrable_witness :
    emittedDev.ssdp = none ∧ emittedDev.device = none
    ∧ emittedDev.friendlyName.isSome ∧ emittedDev.deviceInfo.isSome
    ∧ emittedDev.extendedInfo.isSome
    ∧ keyOf emittedDev = Except.error
        (JsError.typeError "Cannot read properties of undefined (reading LOCATION)")
    ∧ onDeviceEvent [] emittedDev = Except.error
        (JsError.typeError "Cannot read properties of undefined (reading LOCATION)")
    ∧ udnOf emittedDev = none
    ∧ findByUDN [(descLoc, emittedDev)] "uuid:12345678-aaaa-bbbb-cccc-000000000001" = none :=
  c10_emitted_shape_never_registrable descLoc fullDoc emittedDev [] descLoc
    "uuid:12345678-aaaa-bbbb-cccc-000000000001" rfl

end TestSsdp
